import Mathlib

/-!
Shallow embedding of the txsni connection-level negotiation engine
(src/txsni/snimap.py, with the resolver `__getitem__` methods of
src/txsni/certmaps.py and src/txsni/dehydrated.py).

Modelling conventions:
* Python byte strings are lists of byte values (`Bytes`).
* The certificate bundle a resolver returns (the `CertificateOptions` built
  by `certificateOptionsFromPileOfPEM` / `certificateOptionsFromFiles`) is an
  opaque token (`Bundle`); a resolver's directory is the association list of
  the hostnames whose PEM files exist to the bundle parsed from them.
* An OpenSSL context is a record of the fields this code touches, plus a
  numeric identity; every resolver hit builds a fresh `CertificateOptions`,
  so `getContext` allocates a fresh identity from a threaded counter.
* Callbacks are opaque tokens; raising an exception is an `Except.error`.
-/

/-- Python byte strings as lists of byte values. -/
abbrev Bytes := List Nat

/-- The literal `b'acme-tls/1'` (snimap.py line 17). -/
def ACME_TLS_1 : Bytes := [97, 99, 109, 101, 45, 116, 108, 115, 47, 49]

/-- The literal `b"DEFAULT"`, the fallback hostname key. -/
def DEFAULT_KEY : Bytes := [68, 69, 70, 65, 85, 76, 84]

/-- An opaque certificate bundle token. -/
abbrev Bundle := Nat

/-- The exceptions the resolver `__getitem__` methods can raise: `KeyError`
(carrying the hostname from the message) when the PEM files are missing, and
`TypeError`, which `FilePath.child(None)` raises when a resolver that does
not normalize an absent hostname is handed `None`. -/
inductive PyError
  | keyError (hostname : Bytes)
  | typeError
deriving DecidableEq

/-- Negotiation callbacks as opaque tokens. `_ContextProxy.set_alpn_select_callback`
(snimap.py 131-138) does not record the callback it is given: it records and
sets a wrapper (`alpn_callback`) closing over it, so wrapped callbacks are
distinguished from raw ones. -/
inductive Cb
  | raw (n : Nat)
  | wrappedAlpn (n : Nat)
deriving DecidableEq

/-- An OpenSSL context: an identity plus the fields this code reads or
writes. `bundle = none` models a context built from a bare
`CertificateOptions()` with no certificate material. -/
structure Context where
  id : Nat
  bundle : Option Bundle
  npnAdvertiseCb : Option Cb
  npnSelectCb : Option Cb
  alpnSelectCb : Option Cb
  alpnProtos : Option (List Bytes)
deriving DecidableEq

/-- `Context.set_npn_advertise_callback` on the real OpenSSL context. -/
def Context.set_npn_advertise_callback (c : Context) (cb : Cb) : Context :=
  { c with npnAdvertiseCb := some cb }

/-- `Context.set_npn_select_callback` on the real OpenSSL context. -/
def Context.set_npn_select_callback (c : Context) (cb : Cb) : Context :=
  { c with npnSelectCb := some cb }

/-- `Context.set_alpn_select_callback` on the real OpenSSL context. -/
def Context.set_alpn_select_callback (c : Context) (cb : Cb) : Context :=
  { c with alpnSelectCb := some cb }

/-- `Context.set_alpn_protos` on the real OpenSSL context. -/
def Context.set_alpn_protos (c : Context) (ps : List Bytes) : Context :=
  { c with alpnProtos := some ps }

/-- `CertificateOptions.getContext()`: a context freshly built from a bundle
(or from no bundle at all), with no negotiation callbacks registered yet.
`fresh` is the allocator counter supplying the new context's identity. -/
def getContext (fresh : Nat) (b : Option Bundle) : Context :=
  { id := fresh, bundle := b, npnAdvertiseCb := none, npnSelectCb := none,
    alpnSelectCb := none, alpnProtos := none }

/-- One of the four negotiation setters, as invoked on a context; used to
trace which setters a swap invokes. -/
inductive SetterCall
  | npnAdvertise (cb : Cb)
  | npnSelect (cb : Cb)
  | alpnSelect (cb : Cb)
  | alpnProtos (ps : List Bytes)
deriving DecidableEq

/-- `_NegotiationData` (snimap.py 20-49): the four recorded slots. -/
structure NegotiationData where
  npnAdvertiseCallback : Option Cb
  npnSelectCallback : Option Cb
  alpnSelectCallback : Option Cb
  alpnProtocols : Option (List Bytes)
deriving DecidableEq

/-- `_NegotiationData.__init__`: all four slots start unset. -/
def NegotiationData.init : NegotiationData := ⟨none, none, none, none⟩

/-- `_NegotiationData.negotiateNPN` (snimap.py 37-42): return without doing
anything unless both NPN slots were recorded; otherwise invoke the two NPN
setters on the context. Also returns the setters invoked, in order. -/
def NegotiationData.negotiateNPN (d : NegotiationData) (context : Context) :
    Context × List SetterCall :=
  match d.npnAdvertiseCallback, d.npnSelectCallback with
  | some a, some s =>
      ((context.set_npn_advertise_callback a).set_npn_select_callback s,
       [SetterCall.npnAdvertise a, SetterCall.npnSelect s])
  | _, _ => (context, [])

/-- `_NegotiationData.negotiateALPN` (snimap.py 44-49): return without doing
anything unless both ALPN slots were recorded; otherwise invoke the two ALPN
setters on the context. Also returns the setters invoked, in order. -/
def NegotiationData.negotiateALPN (d : NegotiationData) (context : Context) :
    Context × List SetterCall :=
  match d.alpnSelectCallback, d.alpnProtocols with
  | some cb, some ps =>
      ((context.set_alpn_select_callback cb).set_alpn_protos ps,
       [SetterCall.alpnSelect cb, SetterCall.alpnProtos ps])
  | _, _ => (context, [])

/-- `_detect_acme(buf)` (snimap.py 52-71): `ACME_TLS_1 in buf`, Python's
contiguous byte-substring containment test. -/
def _detect_acme (buf : Bytes) : Bool :=
  decide (ACME_TLS_1 <:+: buf)

/-- Association-list lookup standing for a resolver consulting its backing
store (checking which PEM files exist in its directory). -/
def assocFind? (entries : List (Bytes × Bundle)) (k : Bytes) : Option Bundle :=
  match entries with
  | [] => none
  | e :: rest => if e.1 = k then some e.2 else assocFind? rest k

/-- `HostDirectoryMap` (snimap.py 233-246): one directory of
`<hostname>.pem` files, modelled by the hostnames whose file exists and the
bundle its content parses to. -/
structure HostDirectoryMap where
  entries : List (Bytes × Bundle)
deriving DecidableEq

/-- `HostDirectoryMap.__getitem__` (snimap.py 237-246): a `None` hostname is
first replaced by `b"DEFAULT"`; then the file lookup happens, and a missing
file raises `KeyError` naming the (normalized) hostname. -/
def HostDirectoryMap.getitem (m : HostDirectoryMap) (hostname : Option Bytes) :
    Except PyError Bundle :=
  let hostname := hostname.getD DEFAULT_KEY
  match assocFind? m.entries hostname with
  | some b => Except.ok b
  | none => Except.error (PyError.keyError hostname)

/-- `PerHostnameFilesMap` (certmaps.py 34-50): `<hostname>.crt.pem` and
`<hostname>.key.pem` in a single directory; an entry stands for a hostname
with both files. -/
structure PerHostnameFilesMap where
  entries : List (Bytes × Bundle)
deriving DecidableEq

/-- `PerHostnameFilesMap.__getitem__` (certmaps.py 42-50): no `None`
normalization exists here; `self.directoryPath.child(None)` raises
`TypeError` before any file is consulted. A missing pair of files raises
`KeyError`. -/
def PerHostnameFilesMap.getitem (m : PerHostnameFilesMap)
    (hostname : Option Bytes) : Except PyError Bundle :=
  match hostname with
  | none => Except.error PyError.typeError
  | some h =>
    match assocFind? m.entries h with
    | some b => Except.ok b
    | none => Except.error (PyError.keyError h)

/-- `DehydratedAcmeMap` (dehydrated.py 31-45): same single-directory layout
as `PerHostnameFilesMap`. -/
structure DehydratedAcmeMap where
  entries : List (Bytes × Bundle)
deriving DecidableEq

/-- `DehydratedAcmeMap.__getitem__` (dehydrated.py 39-45): no `None`
normalization exists here either; `self.directoryPath.child(None)` raises
`TypeError` before any file is consulted. -/
def DehydratedAcmeMap.getitem (m : DehydratedAcmeMap)
    (hostname : Option Bytes) : Except PyError Bundle :=
  match hostname with
  | none => Except.error PyError.typeError
  | some h =>
    match assocFind? m.entries h with
    | some b => Except.ok b
    | none => Except.error (PyError.keyError h)

/-- The raw OpenSSL connection as the servername and ALPN callbacks receive
it: its current context, the `_acme_tls_1` attribute the sniffer stored on
it, and the SNI servername (`none` when the client sent no SNI, in which
case `get_servername()` returns `None`). -/
structure NativeConnection where
  context : Context
  acme_tls_1 : Bool
  servername : Option Bytes
deriving DecidableEq

/-- Lookup in `self._negotiationDataForContext` without the defaultdict's
insertion side effect: the recorded data, or a fresh `_NegotiationData`. -/
def storeGet (store : List (Nat × NegotiationData)) (k : Nat) :
    NegotiationData :=
  match store with
  | [] => NegotiationData.init
  | e :: rest => if e.1 = k then e.2 else storeGet rest k

/-- Store an entry under a context identity, replacing any previous one. -/
def storeSet (store : List (Nat × NegotiationData)) (k : Nat)
    (v : NegotiationData) : List (Nat × NegotiationData) :=
  match store with
  | [] => [(k, v)]
  | e :: rest => if e.1 = k then (k, v) :: rest else e :: storeSet rest k v

/-- Whether the store already holds an entry for a context identity. -/
def storeHas (store : List (Nat × NegotiationData)) (k : Nat) : Bool :=
  match store with
  | [] => false
  | e :: rest => if e.1 = k then true else storeHas rest k

/-- The `defaultdict` insertion side effect of reading
`self._negotiationDataForContext[oldContext]`: a missing key is inserted
with a fresh `_NegotiationData`. -/
def storeTouch (store : List (Nat × NegotiationData)) (k : Nat) :
    List (Nat × NegotiationData) :=
  if storeHas store k then store else storeSet store k NegotiationData.init

/-- `SNIMap` (snimap.py 156-171): the primary resolver, the optional acme
resolver, the per-context-identity negotiation store, the default context
and the (unused) counter. -/
structure SNIMap where
  mapping : HostDirectoryMap
  acme_mapping : Option HostDirectoryMap
  negotiationDataForContext : List (Nat × NegotiationData)
  context : Context
  counter : Nat
deriving DecidableEq

/-- `SNIMap.__init__` (snimap.py 158-171): the default context is built from
the resolver's `b'DEFAULT'` entry; a `KeyError` there falls back to a bare
`CertificateOptions().getContext()`. The servername-callback registration
has no observable state here beyond `selectContext` being the callback.
`fresh` threads context identities; construction itself cannot fail. -/
def SNIMap.init (mapping : HostDirectoryMap)
    (acme_mapping : Option HostDirectoryMap) (fresh : Nat) : SNIMap × Nat :=
  let context :=
    match mapping.getitem (some DEFAULT_KEY) with
    | Except.ok b => getContext fresh (some b)
    | Except.error _ => getContext fresh none
  ({ mapping := mapping, acme_mapping := acme_mapping,
     negotiationDataForContext := [], context := context, counter := 0 },
   fresh + 1)

/-- `SNIMap._npnAdvertiseCallbackForContext` (snimap.py 218-221). -/
def SNIMap.npnAdvertiseCallbackForContext (m : SNIMap) (ctxId : Nat)
    (cb : Cb) : SNIMap :=
  let d := storeGet m.negotiationDataForContext ctxId
  let d := { d with npnAdvertiseCallback := some cb }
  { m with negotiationDataForContext :=
      storeSet m.negotiationDataForContext ctxId d }

/-- `SNIMap._npnSelectCallbackForContext` (snimap.py 223-224). -/
def SNIMap.npnSelectCallbackForContext (m : SNIMap) (ctxId : Nat)
    (cb : Cb) : SNIMap :=
  let d := storeGet m.negotiationDataForContext ctxId
  let d := { d with npnSelectCallback := some cb }
  { m with negotiationDataForContext :=
      storeSet m.negotiationDataForContext ctxId d }

/-- `SNIMap._alpnSelectCallbackForContext` (snimap.py 226-227). -/
def SNIMap.alpnSelectCallbackForContext (m : SNIMap) (ctxId : Nat)
    (cb : Cb) : SNIMap :=
  let d := storeGet m.negotiationDataForContext ctxId
  let d := { d with alpnSelectCallback := some cb }
  { m with negotiationDataForContext :=
      storeSet m.negotiationDataForContext ctxId d }

/-- `SNIMap._alpnProtocolsForContext` (snimap.py 229-230). -/
def SNIMap.alpnProtocolsForContext (m : SNIMap) (ctxId : Nat)
    (ps : List Bytes) : SNIMap :=
  let d := storeGet m.negotiationDataForContext ctxId
  let d := { d with alpnProtocols := some ps }
  { m with negotiationDataForContext :=
      storeSet m.negotiationDataForContext ctxId d }

/-- `SNIMap.selectAlpn` (snimap.py 173-189). `default` stands for the value
the `default()` thunk would return. `not self.acme_mapping` is
`acme_mapping = none`, a resolver object being always truthy. -/
def SNIMap.selectAlpn (m : SNIMap) (default : Bytes)
    (connection : NativeConnection) (protocols : List Bytes) : Bytes :=
  if ACME_TLS_1 ∉ protocols ∨ m.acme_mapping = none ∨
      connection.acme_tls_1 = false then
    default
  else
    ACME_TLS_1

/-- The resolver choice at the top of `selectContext` (snimap.py 192-194):
`mapping = self.mapping; if connection._acme_tls_1 and self.acme_mapping:
mapping = self.acme_mapping`. -/
def SNIMap.chooseMapping (m : SNIMap) (acmeFlag : Bool) : HostDirectoryMap :=
  match m.acme_mapping with
  | some acme => if acmeFlag then acme else m.mapping
  | none => m.mapping

/-- The whole state `selectContext` can touch: the exception outcome, the
factory, the identity allocator, and the connection. -/
structure SelectContextResult where
  outcome : Except PyError Unit
  snimap : SNIMap
  fresh : Nat
  connection : NativeConnection

/-- `SNIMap.selectContext` (snimap.py 191-203). The resolver `KeyError`
propagates from the lookup line, before the negotiation store is read or
the context swapped, so the error branch leaves every piece of state as it
was. On success the old context's recorded negotiation data is re-applied
to the freshly built context and the connection's context is replaced. -/
def SNIMap.selectContext (m : SNIMap) (fresh : Nat)
    (connection : NativeConnection) : SelectContextResult :=
  let mapping := m.chooseMapping connection.acme_tls_1
  let oldContext := connection.context
  match mapping.getitem connection.servername with
  | Except.error e => ⟨Except.error e, m, fresh, connection⟩
  | Except.ok bundle =>
    let newContext := getContext fresh (some bundle)
    let negotiationData := storeGet m.negotiationDataForContext oldContext.id
    let store1 := storeTouch m.negotiationDataForContext oldContext.id
    let r1 := negotiationData.negotiateNPN newContext
    let r2 := negotiationData.negotiateALPN r1.1
    ⟨Except.ok (), { m with negotiationDataForContext := store1 }, fresh + 1,
     { connection with context := r2.1 }⟩

/-- `_ContextProxy.set_npn_advertise_callback` (snimap.py 123-125): record
the callback in the factory under the wrapped context's identity, then set
it on the wrapped context. -/
def ContextProxy.set_npn_advertise_callback (m : SNIMap) (ctx : Context)
    (cb : Cb) : SNIMap × Context :=
  (m.npnAdvertiseCallbackForContext ctx.id cb,
   ctx.set_npn_advertise_callback cb)

/-- `_ContextProxy.set_npn_select_callback` (snimap.py 127-129). -/
def ContextProxy.set_npn_select_callback (m : SNIMap) (ctx : Context)
    (cb : Cb) : SNIMap × Context :=
  (m.npnSelectCallbackForContext ctx.id cb, ctx.set_npn_select_callback cb)

/-- `_ContextProxy.set_alpn_select_callback` (snimap.py 131-138): the given
raw callback is closed over by a wrapper routing through `selectAlpn`, and
the wrapper is what gets recorded and set. -/
def ContextProxy.set_alpn_select_callback (m : SNIMap) (ctx : Context)
    (cb : Nat) : SNIMap × Context :=
  (m.alpnSelectCallbackForContext ctx.id (Cb.wrappedAlpn cb),
   ctx.set_alpn_select_callback (Cb.wrappedAlpn cb))

/-- `_ContextProxy.set_alpn_protos` (snimap.py 140-142). -/
def ContextProxy.set_alpn_protos (m : SNIMap) (ctx : Context)
    (ps : List Bytes) : SNIMap × Context :=
  (m.alpnProtocolsForContext ctx.id ps, ctx.set_alpn_protos ps)

/-- Attribute names on the connection proxy and on the wrapped native
connection, for the dynamic-attribute semantics of `_ConnectionProxy`. -/
inductive Attr
  | obj
  | factory
  | acmeTls1
  | bioWrite
  | other (n : Nat)
deriving DecidableEq

/-- Dynamically stored attribute values: the sniffed boolean flag, a bound
method, or any other opaque value. -/
inductive PyVal
  | bool (b : Bool)
  | method
  | token (n : Nat)
deriving DecidableEq

/-- Instance-dictionary lookup. -/
def dictGet? (d : List (Attr × PyVal)) (k : Attr) : Option PyVal :=
  match d with
  | [] => none
  | e :: rest => if e.1 = k then some e.2 else dictGet? rest k

/-- Instance-dictionary update. -/
def dictSet (d : List (Attr × PyVal)) (k : Attr) (v : PyVal) :
    List (Attr × PyVal) :=
  match d with
  | [] => [(k, v)]
  | e :: rest => if e.1 = k then (k, v) :: rest else e :: dictSet rest k v

/-- The two instance dictionaries involved in one `_ConnectionProxy`: the
proxy's own `__dict__` and the wrapped native connection's `__dict__`. -/
structure ProxyConn where
  proxyDict : List (Attr × PyVal)
  objDict : List (Attr × PyVal)
deriving DecidableEq

/-- `_ConnectionProxy.__setattr__` (snimap.py 103-107): an assignment to
`_obj` or `_factory` goes into the proxy's own `__dict__`; every other
attribute assignment is forwarded onto the wrapped native connection. -/
def connectionProxySetattr (c : ProxyConn) (attr : Attr) (v : PyVal) :
    ProxyConn :=
  if attr = Attr.obj ∨ attr = Attr.factory then
    { c with proxyDict := dictSet c.proxyDict attr v }
  else
    { c with objDict := dictSet c.objDict attr v }

/-- One `bio_write` call on the proxy (snimap.py 92-98). Python resolves
`proxy.bio_write` through the proxy's instance `__dict__` first; only when
no instance attribute shadows the class method does the sniffing
`_ConnectionProxy.bio_write` body run. That body assigns
`self._acme_tls_1 = _detect_acme(buf)` and then
`self.bio_write = self._obj.bio_write`, both through `__setattr__`; the
final raw `self._obj.bio_write(buf)` call touches no attributes. -/
def proxyBioWrite (c : ProxyConn) (buf : Bytes) : ProxyConn :=
  if (dictGet? c.proxyDict Attr.bioWrite).isSome then
    c
  else
    let c1 := connectionProxySetattr c Attr.acmeTls1
      (PyVal.bool (_detect_acme buf))
    connectionProxySetattr c1 Attr.bioWrite PyVal.method

/-- Test-scenario driver for the round-trip property: the four negotiation
registrations the upstream code performs through a `_ContextProxy` wrapping
one context, in order. -/
def registerAll (m : SNIMap) (ctx : Context) (a s : Cb) (c : Nat)
    (ps : List Bytes) : SNIMap × Context :=
  let r1 := ContextProxy.set_npn_advertise_callback m ctx a
  let r2 := ContextProxy.set_npn_select_callback r1.1 r1.2 s
  let r3 := ContextProxy.set_alpn_select_callback r2.1 r2.2 c
  ContextProxy.set_alpn_protos r3.1 r3.2 ps

theorem storeGet_storeSet (st : List (Nat × NegotiationData)) (k : Nat)
    (v : NegotiationData) : storeGet (storeSet st k v) k = v := by
  induction st with
  | nil => simp [storeSet, storeGet]
  | cons e rest ih =>
    by_cases h : e.1 = k
    · simp [storeSet, storeGet, h]
    · simp [storeSet, storeGet, h, ih]

theorem negotiateNPN_preserve (d : NegotiationData) (c : Context) :
    (d.negotiateNPN c).1.id = c.id ∧ (d.negotiateNPN c).1.bundle = c.bundle := by
  unfold NegotiationData.negotiateNPN
  cases d.npnAdvertiseCallback <;> cases d.npnSelectCallback <;>
    simp [Context.set_npn_advertise_callback, Context.set_npn_select_callback]

theorem negotiateALPN_preserve (d : NegotiationData) (c : Context) :
    (d.negotiateALPN c).1.id = c.id ∧ (d.negotiateALPN c).1.bundle = c.bundle := by
  unfold NegotiationData.negotiateALPN
  cases d.alpnSelectCallback <;> cases d.alpnProtocols <;>
    simp [Context.set_alpn_select_callback, Context.set_alpn_protos]

theorem selectContext_ok (m : SNIMap) (fresh : Nat) (conn : NativeConnection)
    (bundle : Bundle)
    (hres : (m.chooseMapping conn.acme_tls_1).getitem conn.servername =
      Except.ok bundle) :
    m.selectContext fresh conn =
      ⟨Except.ok (),
       { m with negotiationDataForContext :=
           storeTouch m.negotiationDataForContext conn.context.id },
       fresh + 1,
       { conn with context :=
           ((storeGet m.negotiationDataForContext conn.context.id).negotiateALPN
             (((storeGet m.negotiationDataForContext conn.context.id).negotiateNPN
               (getContext fresh (some bundle))).1)).1 }⟩ := by
  simp only [SNIMap.selectContext, hres]

theorem selectContext_err (m : SNIMap) (fresh : Nat) (conn : NativeConnection)
    (e : PyError)
    (hres : (m.chooseMapping conn.acme_tls_1).getitem conn.servername =
      Except.error e) :
    m.selectContext fresh conn = ⟨Except.error e, m, fresh, conn⟩ := by
  simp only [SNIMap.selectContext, hres]

/-- C2: `selectAlpn` returns `defaultDecision()`'s value unchanged whenever
`"acme-tls/1"` is not offered, or no acme resolver is configured, or the
session's ACME flag is false; otherwise it returns the literal
`"acme-tls/1"` regardless of what the default decision would return. -/
theorem C2_selectAlpn (m : SNIMap) (default : Bytes)
    (conn : NativeConnection) (protocols : List Bytes) :
    (ACME_TLS_1 ∉ protocols ∨ m.acme_mapping = none ∨
        conn.acme_tls_1 = false →
      m.selectAlpn default conn protocols = default) ∧
    (ACME_TLS_1 ∈ protocols → m.acme_mapping ≠ none →
        conn.acme_tls_1 = true →
      m.selectAlpn default conn protocols = ACME_TLS_1) := by
  constructor
  · intro h
    unfold SNIMap.selectAlpn
    rw [if_pos h]
  · intro h1 h2 h3
    unfold SNIMap.selectAlpn
    rw [if_neg]
    rintro (h | h | h)
    · exact h h1
    · exact h2 h
    · simp [h3] at h

theorem C2_witness :
    SNIMap.selectAlpn
      { mapping := ⟨[]⟩, acme_mapping := some ⟨[]⟩,
        negotiationDataForContext := [], context := getContext 0 none,
        counter := 0 }
      [104, 50]
      { context := getContext 0 none, acme_tls_1 := true, servername := none }
      [[104, 50], ACME_TLS_1] = ACME_TLS_1 :=
  (C2_selectAlpn _ _ _ _).2 (by simp) (by simp) rfl

/-- C3: when the chosen resolver cannot resolve the hostname,
`selectContext` fails with the `KeyError` (certificate-not-found) the
resolver raised, and every piece of state, in particular the connection's
active context, is exactly what it was before the call. -/
theorem C3_selectContext_miss (m : SNIMap) (fresh : Nat)
    (conn : NativeConnection) (k : Bytes)
    (hmiss : (m.chooseMapping conn.acme_tls_1).getitem conn.servername =
      Except.error (PyError.keyError k)) :
    m.selectContext fresh conn =
      ⟨Except.error (PyError.keyError k), m, fresh, conn⟩ :=
  selectContext_err m fresh conn (PyError.keyError k) hmiss

theorem C3_witness :
    SNIMap.selectContext
      { mapping := ⟨[]⟩, acme_mapping := none,
        negotiationDataForContext := [], context := getContext 0 none,
        counter := 0 }
      1
      { context := getContext 0 none, acme_tls_1 := false,
        servername := some [104] } =
      ⟨Except.error (PyError.keyError [104]),
       { mapping := ⟨[]⟩, acme_mapping := none,
         negotiationDataForContext := [], context := getContext 0 none,
         counter := 0 },
       1,
       { context := getContext 0 none, acme_tls_1 := false,
         servername := some [104] }⟩ :=
  C3_selectContext_miss _ 1 _ [104] rfl

/-- C5: the ACME determination on a byte buffer is true exactly when the
literal byte sequence `"acme-tls/1"` occurs as a contiguous substring of the
buffer; a buffer shorter than that sequence (including the empty buffer)
always yields false. -/
theorem C5_detect_acme (buf : Bytes) :
    (_detect_acme buf = true ↔ ∃ s t, s ++ ACME_TLS_1 ++ t = buf) ∧
    (buf.length < ACME_TLS_1.length → _detect_acme buf = false) := by
  constructor
  · exact decide_eq_true_iff
  · intro h
    cases hdet : _detect_acme buf with
    | false => rfl
    | true =>
      have hinf : ACME_TLS_1 <:+: buf := of_decide_eq_true hdet
      have := hinf.length_le
      omega

theorem C5_witness :
    ([] : Bytes).length < ACME_TLS_1.length ∧ _detect_acme [] = false :=
  ⟨by decide, (C5_detect_acme []).2 (by decide)⟩

/-- C7: when no NPN pair and no ALPN pair was recorded against the old
context, re-applying the negotiation data invokes none of the four
negotiation setters and leaves the new context unchanged; in particular a
freshly constructed `_NegotiationData` is a complete no-op. -/
theorem C7_apply_noop (d : NegotiationData) (ctx : Context) :
    ((d.npnAdvertiseCallback = none ∨ d.npnSelectCallback = none) →
       d.negotiateNPN ctx = (ctx, [])) ∧
    ((d.alpnSelectCallback = none ∨ d.alpnProtocols = none) →
       d.negotiateALPN ctx = (ctx, [])) ∧
    (d = NegotiationData.init →
       (d.negotiateALPN (d.negotiateNPN ctx).1).1 = ctx ∧
       (d.negotiateNPN ctx).2 = [] ∧
       (d.negotiateALPN (d.negotiateNPN ctx).1).2 = []) := by
  refine ⟨?_, ?_, ?_⟩
  · intro h
    cases hA : d.npnAdvertiseCallback <;> cases hS : d.npnSelectCallback <;>
      simp_all [NegotiationData.negotiateNPN]
  · intro h
    cases hA : d.alpnSelectCallback <;> cases hP : d.alpnProtocols <;>
      simp_all [NegotiationData.negotiateALPN]
  · intro h
    subst h
    exact ⟨rfl, rfl, rfl⟩

theorem C7_witness :
    NegotiationData.init.negotiateNPN (getContext 0 none) =
      (getContext 0 none, []) :=
  (C7_apply_noop NegotiationData.init (getContext 0 none)).1 (Or.inl rfl)

/-- C8 counterexample: `PerHostnameFilesMap.__getitem__` does not perform
the lookup for an absent hostname under the key `"DEFAULT"`: even when a
`DEFAULT` entry exists (so the normalized lookup would succeed), an absent
hostname raises `TypeError` without consulting the backing store. -/
theorem C8_counterexample :
    PerHostnameFilesMap.getitem ⟨[(DEFAULT_KEY, 42)]⟩ none =
        Except.error PyError.typeError ∧
    PerHostnameFilesMap.getitem ⟨[(DEFAULT_KEY, 42)]⟩ (some DEFAULT_KEY) =
        Except.ok 42 :=
  ⟨rfl, rfl⟩

/-- C8 amended: `HostDirectoryMap.__getitem__` normalizes an absent
hostname to the literal key `"DEFAULT"` before consulting its backing
store, but the two single-directory acme resolvers
(`PerHostnameFilesMap.__getitem__`, `DehydratedAcmeMap.__getitem__`)
perform no such normalization: for them an absent hostname raises
`TypeError` and never reaches the backing store under any key. -/
theorem C8_amended (m : HostDirectoryMap) (m2 : PerHostnameFilesMap)
    (m3 : DehydratedAcmeMap) :
    m.getitem none = m.getitem (some DEFAULT_KEY) ∧
    m2.getitem none = Except.error PyError.typeError ∧
    m3.getitem none = Except.error PyError.typeError :=
  ⟨rfl, rfl, rfl⟩

/-- C9: dispatcher construction never fails for lack of a default
certificate: `SNIMap.__init__` is total, and the initial context is the
empty placeholder (`CertificateOptions().getContext()`, carrying no bundle)
when the primary resolver has no `DEFAULT` entry, and is built from that
entry's bundle when it exists. -/
theorem C9_init (mapping : HostDirectoryMap) (acme : Option HostDirectoryMap)
    (fresh : Nat) :
    (∀ e, mapping.getitem (some DEFAULT_KEY) = Except.error e →
       (SNIMap.init mapping acme fresh).1.context = getContext fresh none) ∧
    (∀ b, mapping.getitem (some DEFAULT_KEY) = Except.ok b →
       (SNIMap.init mapping acme fresh).1.context =
         getContext fresh (some b)) := by
  constructor <;> intro x h <;> simp [SNIMap.init, h]

theorem C9_witness :
    (SNIMap.init ⟨[]⟩ none 0).1.context = getContext 0 none :=
  (C9_init ⟨[]⟩ none 0).1 (PyError.keyError DEFAULT_KEY) rfl

/-- C1: for a hostname the chosen resolver resolves, `selectContext` picks
the acme resolver exactly when the session's ACME flag is set and an acme
resolver is configured (and the primary resolver otherwise), builds the new
context from exactly the bundle that resolver returns, and on return the
connection's active context is that new context, whose identity (fresh by
the allocator invariant `conn.context.id < fresh`) differs from the
previous active context's. -/
theorem C1_selectContext_success (m : SNIMap) (fresh : Nat)
    (conn : NativeConnection) (bundle : Bundle)
    (hres : (m.chooseMapping conn.acme_tls_1).getitem conn.servername =
      Except.ok bundle)
    (hfresh : conn.context.id < fresh) :
    (∀ acme, m.acme_mapping = some acme →
       m.chooseMapping conn.acme_tls_1 =
         if conn.acme_tls_1 then acme else m.mapping) ∧
    (m.acme_mapping = none →
       m.chooseMapping conn.acme_tls_1 = m.mapping) ∧
    (m.selectContext fresh conn).outcome = Except.ok () ∧
    (m.selectContext fresh conn).connection.context.bundle = some bundle ∧
    (m.selectContext fresh conn).connection.context.id = fresh ∧
    (m.selectContext fresh conn).connection.context.id ≠ conn.context.id := by
  have hsel := selectContext_ok m fresh conn bundle hres
  have hN := negotiateNPN_preserve
    (storeGet m.negotiationDataForContext conn.context.id)
    (getContext fresh (some bundle))
  have hA := negotiateALPN_preserve
    (storeGet m.negotiationDataForContext conn.context.id)
    (((storeGet m.negotiationDataForContext conn.context.id).negotiateNPN
      (getContext fresh (some bundle))).1)
  refine ⟨?_, ?_, ?_, ?_, ?_, ?_⟩
  · intro acme h
    simp [SNIMap.chooseMapping, h]
  · intro h
    simp [SNIMap.chooseMapping, h]
  · rw [hsel]
  · rw [hsel]
    show ((storeGet m.negotiationDataForContext conn.context.id).negotiateALPN
      _).1.bundle = some bundle
    rw [hA.2, hN.2]
    rfl
  · rw [hsel]
    show ((storeGet m.negotiationDataForContext conn.context.id).negotiateALPN
      _).1.id = fresh
    rw [hA.1, hN.1]
    rfl
  · rw [hsel]
    show ((storeGet m.negotiationDataForContext conn.context.id).negotiateALPN
      _).1.id ≠ conn.context.id
    rw [hA.1, hN.1]
    show fresh ≠ conn.context.id
    omega

theorem C1_witness :
    (SNIMap.selectContext
      { mapping := ⟨[(DEFAULT_KEY, 7)]⟩, acme_mapping := none,
        negotiationDataForContext := [], context := getContext 0 none,
        counter := 0 }
      5
      { context := getContext 0 none, acme_tls_1 := false,
        servername := none }).connection.context.bundle = some 7 :=
  (C1_selectContext_success
    { mapping := ⟨[(DEFAULT_KEY, 7)]⟩, acme_mapping := none,
      negotiationDataForContext := [], context := getContext 0 none,
      counter := 0 }
    5
    { context := getContext 0 none, acme_tls_1 := false, servername := none }
    7 rfl (by decide)).2.2.2.1

/-- C4: the code contradicts its own docstring, which promises to look for
acme in the first packet only. The disabling assignment
`self.bio_write = self._obj.bio_write` is routed by
`_ConnectionProxy.__setattr__` onto the wrapped connection instead of the
proxy's own `__dict__`, so the sniffing class method keeps running: after a
first chunk containing `"acme-tls/1"` latched the flag true, a second chunk
without it overwrites the flag back to false. -/
theorem C4_sniffer_not_disabled :
    dictGet? (proxyBioWrite ⟨[], []⟩ ACME_TLS_1).objDict Attr.acmeTls1 =
        some (PyVal.bool true) ∧
    dictGet? (proxyBioWrite ⟨[], []⟩ ACME_TLS_1).proxyDict Attr.bioWrite =
        none ∧
    dictGet? (proxyBioWrite (proxyBioWrite ⟨[], []⟩ ACME_TLS_1)
        [104, 50]).objDict Attr.acmeTls1 = some (PyVal.bool false) := by
  refine ⟨?_, rfl, ?_⟩ <;> decide

/-- C10: every attribute write on the connection proxy other than to its two
internal slots `_obj` and `_factory` is forwarded onto the wrapped native
connection, the proxy's own `__dict__` staying untouched; consequently the
ACME flag the sniffer computes from the first chunk is stored as the
`_acme_tls_1` attribute of the native connection itself, which is the very
object the TLS library later hands to `selectContext` and to the ALPN
callback. -/
theorem C10_setattr_forwarding (c : ProxyConn) (attr : Attr) (v : PyVal)
    (h1 : attr ≠ Attr.obj) (h2 : attr ≠ Attr.factory) :
    (connectionProxySetattr c attr v).proxyDict = c.proxyDict ∧
    (connectionProxySetattr c attr v).objDict = dictSet c.objDict attr v ∧
    ∀ buf : Bytes,
      dictGet? (proxyBioWrite ⟨[], []⟩ buf).objDict Attr.acmeTls1 =
          some (PyVal.bool (_detect_acme buf)) ∧
      (proxyBioWrite ⟨[], []⟩ buf).proxyDict = [] := by
  have hn : ¬(attr = Attr.obj ∨ attr = Attr.factory) := by
    rintro (h | h)
    · exact h1 h
    · exact h2 h
  refine ⟨?_, ?_, ?_⟩
  · simp [connectionProxySetattr, hn]
  · simp [connectionProxySetattr, hn]
  · intro buf
    exact ⟨rfl, rfl⟩

theorem C10_witness :
    (connectionProxySetattr ⟨[], []⟩ Attr.acmeTls1
      (PyVal.bool true)).proxyDict = [] :=
  (C10_setattr_forwarding ⟨[], []⟩ Attr.acmeTls1 (PyVal.bool true)
    (by decide) (by decide)).1

theorem registerAll_store (m : SNIMap) (ctx : Context) (a s : Cb) (c : Nat)
    (ps : List Bytes) :
    storeGet (registerAll m ctx a s c ps).1.negotiationDataForContext ctx.id =
      ⟨some a, some s, some (Cb.wrappedAlpn c), some ps⟩ ∧
    (registerAll m ctx a s c ps).2 =
      { ctx with
          npnAdvertiseCb := some a,
          npnSelectCb := some s,
          alpnSelectCb := some (Cb.wrappedAlpn c),
          alpnProtos := some ps } ∧
    (registerAll m ctx a s c ps).1.mapping = m.mapping ∧
    (registerAll m ctx a s c ps).1.acme_mapping = m.acme_mapping := by
  unfold registerAll ContextProxy.set_npn_advertise_callback
    ContextProxy.set_npn_select_callback ContextProxy.set_alpn_select_callback
    ContextProxy.set_alpn_protos
  simp only [SNIMap.npnAdvertiseCallbackForContext,
    SNIMap.npnSelectCallbackForContext, SNIMap.alpnSelectCallbackForContext,
    SNIMap.alpnProtocolsForContext, Context.set_npn_advertise_callback,
    Context.set_npn_select_callback, Context.set_alpn_select_callback,
    Context.set_alpn_protos, storeGet_storeSet]
  refine ⟨?_, ?_, ?_, ?_⟩ <;> trivial

/-- C6: round-trip of the negotiation profile across a context swap. After
registering an NPN advertise callback, an NPN select callback, an ALPN
select callback and an ALPN protocol list through a `_ContextProxy` wrapping
context A, a successful `selectContext` swap re-applies all four onto the
new context with exactly the values that were recorded and set on A (for
the ALPN select slot this is the wrapper the proxy recorded). -/
theorem C6_roundtrip (m : SNIMap) (a s c : Nat) (ps : List Bytes)
    (ctxA : Context) (fresh : Nat) (flag : Bool) (sn : Option Bytes)
    (bundle : Bundle)
    (hres : (m.chooseMapping flag).getitem sn = Except.ok bundle) :
    ((registerAll m ctxA (Cb.raw a) (Cb.raw s) c ps).1.selectContext fresh
        ⟨(registerAll m ctxA (Cb.raw a) (Cb.raw s) c ps).2, flag,
          sn⟩).outcome = Except.ok () ∧
    (((registerAll m ctxA (Cb.raw a) (Cb.raw s) c ps).1.selectContext fresh
        ⟨(registerAll m ctxA (Cb.raw a) (Cb.raw s) c ps).2, flag,
          sn⟩).connection.context.npnAdvertiseCb = some (Cb.raw a) ∧
      (registerAll m ctxA (Cb.raw a) (Cb.raw s) c ps).2.npnAdvertiseCb =
        some (Cb.raw a)) ∧
    (((registerAll m ctxA (Cb.raw a) (Cb.raw s) c ps).1.selectContext fresh
        ⟨(registerAll m ctxA (Cb.raw a) (Cb.raw s) c ps).2, flag,
          sn⟩).connection.context.npnSelectCb = some (Cb.raw s) ∧
      (registerAll m ctxA (Cb.raw a) (Cb.raw s) c ps).2.npnSelectCb =
        some (Cb.raw s)) ∧
    (((registerAll m ctxA (Cb.raw a) (Cb.raw s) c ps).1.selectContext fresh
        ⟨(registerAll m ctxA (Cb.raw a) (Cb.raw s) c ps).2, flag,
          sn⟩).connection.context.alpnSelectCb = some (Cb.wrappedAlpn c) ∧
      (registerAll m ctxA (Cb.raw a) (Cb.raw s) c ps).2.alpnSelectCb =
        some (Cb.wrappedAlpn c)) ∧
    (((registerAll m ctxA (Cb.raw a) (Cb.raw s) c ps).1.selectContext fresh
        ⟨(registerAll m ctxA (Cb.raw a) (Cb.raw s) c ps).2, flag,
          sn⟩).connection.context.alpnProtos = some ps ∧
      (registerAll m ctxA (Cb.raw a) (Cb.raw s) c ps).2.alpnProtos =
        some ps) := by
  obtain ⟨hstore, hctx, hmap, hacme⟩ :=
    registerAll_store m ctxA (Cb.raw a) (Cb.raw s) c ps
  set M := (registerAll m ctxA (Cb.raw a) (Cb.raw s) c ps).1 with hM
  set ctx4 := (registerAll m ctxA (Cb.raw a) (Cb.raw s) c ps).2 with hC
  have hid4 : ctx4.id = ctxA.id := by rw [hctx]
  have hch : M.chooseMapping flag = m.chooseMapping flag := by
    unfold SNIMap.chooseMapping
    rw [hacme, hmap]
  have hres' : (M.chooseMapping flag).getitem sn = Except.ok bundle := by
    rw [hch]
    exact hres
  have hsel := selectContext_ok M fresh ⟨ctx4, flag, sn⟩ bundle hres'
  have hstore4 : storeGet M.negotiationDataForContext ctx4.id =
      ⟨some (Cb.raw a), some (Cb.raw s), some (Cb.wrappedAlpn c),
       some ps⟩ := by
    rw [hid4]
    exact hstore
  refine ⟨?_, ⟨?_, ?_⟩, ⟨?_, ?_⟩, ⟨?_, ?_⟩, ⟨?_, ?_⟩⟩
  · rw [hsel]
  · rw [hsel]
    show ((storeGet M.negotiationDataForContext ctx4.id).negotiateALPN
      (((storeGet M.negotiationDataForContext ctx4.id).negotiateNPN
        (getContext fresh (some bundle))).1)).1.npnAdvertiseCb =
      some (Cb.raw a)
    rw [hstore4]
    rfl
  · rw [hctx]
  · rw [hsel]
    show ((storeGet M.negotiationDataForContext ctx4.id).negotiateALPN
      (((storeGet M.negotiationDataForContext ctx4.id).negotiateNPN
        (getContext fresh (some bundle))).1)).1.npnSelectCb =
      some (Cb.raw s)
    rw [hstore4]
    rfl
  · rw [hctx]
  · rw [hsel]
    show ((storeGet M.negotiationDataForContext ctx4.id).negotiateALPN
      (((storeGet M.negotiationDataForContext ctx4.id).negotiateNPN
        (getContext fresh (some bundle))).1)).1.alpnSelectCb =
      some (Cb.wrappedAlpn c)
    rw [hstore4]
    rfl
  · rw [hctx]
  · rw [hsel]
    show ((storeGet M.negotiationDataForContext ctx4.id).negotiateALPN
      (((storeGet M.negotiationDataForContext ctx4.id).negotiateNPN
        (getContext fresh (some bundle))).1)).1.alpnProtos = some ps
    rw [hstore4]
    rfl
  · rw [hctx]

theorem C6_witness :
    ((registerAll
      { mapping := ⟨[(DEFAULT_KEY, 7)]⟩, acme_mapping := none,
        negotiationDataForContext := [], context := getContext 0 none,
        counter := 0 }
      (getContext 0 none) (Cb.raw 1) (Cb.raw 2) 3
      [[104, 50]]).1.selectContext 5
        ⟨(registerAll
          { mapping := ⟨[(DEFAULT_KEY, 7)]⟩, acme_mapping := none,
            negotiationDataForContext := [], context := getContext 0 none,
            counter := 0 }
          (getContext 0 none) (Cb.raw 1) (Cb.raw 2) 3
          [[104, 50]]).2, false,
          none⟩).connection.context.alpnSelectCb = some (Cb.wrappedAlpn 3) :=
  (C6_roundtrip
    { mapping := ⟨[(DEFAULT_KEY, 7)]⟩, acme_mapping := none,
      negotiationDataForContext := [], context := getContext 0 none,
      counter := 0 }
    1 2 3 [[104, 50]] (getContext 0 none) 5 false none 7 rfl).2.2.2.1.1
